import Mathlib

/-!
Verification of the task-dispatch core of `src/backend/api_backend.py`
(multi-agent content system).  The Python source is shallowly embedded:
pure record updates become Lean functions, `asyncio` scheduling becomes an
explicit small-step machine over an agent state, and Python exceptions
become `Except PyErr`.  External collaborators (Gemini generation, Google
docs/analytics, Zapier) are parameters of an `Env` record because the
source wraps each of them in a catch-all that never lets an exception
escape (GoogleGeminiIntegration.generate_content, ZapierMCPIntegration.
execute_zap, GoogleADKIntegration.get_analytics_data all return a value on
their own error paths).
-/

namespace MultiAgent

/-- Python-style values flowing through task payloads and results
(`Dict[str, Any]` in the source).  `vnone` is Python `None`. -/
inductive Val where
  | vnone : Val
  | vstr : String → Val
  | vint : Int → Val
  | vlist : List Val → Val
  | vmap : List (String × Val) → Val
deriving Repr

/-- Python exceptions that the embedded code can raise. -/
inductive PyErr where
  | attrError : String → PyErr
  | keyError : String → PyErr
  | typeError : String → PyErr
  | exn : String → PyErr
deriving Repr, DecidableEq

/-- The `str(e)` used when `_handle_task` stores `{"error": str(e)}`. -/
def PyErr.msg : PyErr → String
  | .attrError s => s
  | .keyError s => s
  | .typeError s => s
  | .exn s => s

/-- Python `dict.get(key, default)`: on a dict returns the stored value or
the default; on any non-dict (including `None`) the attribute access
`.get` raises `AttributeError`. -/
def Val.get (v : Val) (k : String) (dflt : Val) : Except PyErr Val :=
  match v with
  | .vmap kvs => .ok ((kvs.lookup k).getD dflt)
  | _ => .error (.attrError ("object has no attribute get: " ++ k))

/-- Python subscript `v[k]`: `KeyError` on a dict without the key,
`TypeError` when the value is not subscriptable (e.g. `None`). -/
def Val.sub (v : Val) (k : String) : Except PyErr Val :=
  match v with
  | .vmap kvs =>
    match kvs.lookup k with
    | some x => .ok x
    | none => .error (.keyError k)
  | .vnone => .error (.typeError "NoneType object is not subscriptable")
  | _ => .error (.typeError "object is not subscriptable")

/-- Python `str(v)` as used inside f-string prompts.  Composite values are
rendered opaquely: the rendered text is consumed only by the opaque
generation collaborator `Env.gen`, so the exact rendering affects no
observable of any claim. -/
def Val.pystr : Val → String
  | .vnone => "None"
  | .vstr s => s
  | .vint i => toString i
  | .vlist _ => "<list>"
  | .vmap _ => "<dict>"

/-- Helper for Python `", ".join(xs)` over a list value: every element
must be a string, otherwise `TypeError`. -/
def joinParts : List Val → Except PyErr (List String)
  | [] => .ok []
  | .vstr s :: rest => (joinParts rest).map (fun l => s :: l)
  | _ :: _ => .error (.typeError "sequence item: expected str instance")

/-- Python `", ".join(v)`: joins a list of strings; joining a string joins
its characters; anything else raises `TypeError`. -/
def Val.joinComma : Val → Except PyErr String
  | .vlist xs => (joinParts xs).map (String.intercalate ", ")
  | .vstr s => .ok (String.intercalate ", " (s.toList.map String.singleton))
  | _ => .error (.typeError "can only join an iterable")

/-- Python `v == "literal"` where the literal is a string: true only when
`v` is an equal string (comparison with another type is `False`). -/
def Val.eqStr (v : Val) (s : String) : Bool :=
  match v with
  | .vstr t => t == s
  | _ => false

/-- The four values of `Task.status` in the source (`"pending"`,
`"in_progress"`, `"completed"`, `"failed"`). -/
inductive Status where
  | pending : Status
  | inProgress : Status
  | completed : Status
  | failed : Status
deriving Repr, DecidableEq

/-- Forward progress measure on statuses: `pending` before `in_progress`
before either terminal status. -/
def Status.rank : Status → Nat
  | .pending => 0
  | .inProgress => 1
  | .completed => 2
  | .failed => 2

/-- The `Task` dataclass (api_backend.py lines 133-143): `id`, `type`,
`priority`, `data`, `assigned_agent=None`, `status="pending"`,
`created_at=now`, `completed_at=None`, `result=None`. -/
structure TaskR where
  id : String
  ttype : String
  priority : Int
  data : Val
  assignedAgent : Option String := none
  status : Status := .pending
  createdAt : Nat
  completedAt : Option Nat := none
  result : Val := .vnone
deriving Repr

/-- First half of `BaseAgent._handle_task` (lines 394-397): the task is
registered in `active_tasks` (modeled in the scheduler machine below) and
its status is set to `"in_progress"`. -/
def handleTaskStart (t : TaskR) : TaskR :=
  { t with status := .inProgress }

/-- Second half of `BaseAgent._handle_task` (lines 399-409), applied to
the outcome of `await self.process_task(task)`: on success store the
result, set status `"completed"` and `completed_at = now`; on an exception
set status `"failed"` and `result = {"error": str(e)}` — the source sets
no `completed_at` on this path.  Both paths delete the task from
`active_tasks` (scheduler machine below). -/
def handleTaskFinish (t : TaskR) (outcome : Except PyErr Val) (now : Nat) : TaskR :=
  match outcome with
  | .ok r => { t with result := r, status := .completed, completedAt := some now }
  | .error e => { t with status := .failed, result := .vmap [("error", .vstr e.msg)] }

/-- Whole-of-`_handle_task` effect on the task record. -/
def handleTask (t : TaskR) (outcome : Except PyErr Val) (now : Nat) : TaskR :=
  handleTaskFinish (handleTaskStart t) outcome now

/-- External collaborators, behind the narrow interfaces of the source.
Every one of these is total because the corresponding source method
catches its own exceptions and returns a value on failure. -/
structure Env where
  gen : String → String
  analytics : String → Val
  accessDocs : String → String → Val
  executeZap : String → Val → Val

/-- Embeds `ContentStrategistAgent._create_content_plan` (lines 422-459). -/
def createContentPlan (env : Env) (data : Val) : Except PyErr Val := do
  let propertyId ← data.get "property_id" (.vstr "demo")
  let analytics := env.analytics propertyId.pystr
  let audience ← data.get "target_audience" .vnone
  let goals ← data.get "goals" .vnone
  let industry ← data.get "industry" .vnone
  let budget ← data.get "budget" (.vstr "Not specified")
  let prompt := "Create a comprehensive content marketing strategy based on: "
    ++ "- Target audience: " ++ audience.pystr
    ++ " - Business goals: " ++ goals.pystr
    ++ " - Current performance: " ++ analytics.pystr
    ++ " - Industry: " ++ industry.pystr
    ++ " - Budget: " ++ budget.pystr
  let strategyContent := env.gen prompt
  .ok (.vmap [
    ("strategy", .vmap [
      ("content_pillars", .vlist [.vstr "Educational", .vstr "Thought Leadership", .vstr "Product-focused"]),
      ("schedule", .vmap [("frequency", .vstr "3x/week"),
        ("best_times", .vlist [.vstr "9 AM", .vstr "2 PM", .vstr "7 PM"])]),
      ("kpis", .vlist [.vstr "engagement_rate", .vstr "lead_generation", .vstr "brand_awareness"]),
      ("ai_generated_details", .vstr strategyContent)]),
    ("analytics_context", analytics)])

/-- Embeds `ContentStrategistAgent._analyze_competitors` (lines 461-481). -/
def analyzeCompetitors (env : Env) (data : Val) : Except PyErr Val := do
  let competitors ← data.get "competitors" (.vlist [])
  let joined ← competitors.joinComma
  let prompt := "Analyze content marketing strategies for these competitors: " ++ joined
  let analysisContent := env.gen prompt
  .ok (.vmap [("competitor_analysis", .vstr analysisContent),
    ("competitors_analyzed", competitors)])

/-- Embeds `ContentStrategistAgent._identify_trends` (lines 483-502). -/
def identifyTrends (env : Env) (data : Val) : Except PyErr Val := do
  let industry ← data.get "industry" (.vstr "general")
  let prompt := "Identify current trending topics and keywords for the "
    ++ industry.pystr ++ " industry."
  let trendsContent := env.gen prompt
  .ok (.vmap [("trends", .vstr trendsContent), ("industry", industry)])

/-- Embeds `ContentStrategistAgent.process_task` (lines 414-420): dispatch on
`task.type`; an unmatched type falls off the if/elif chain and the method
returns `None`. -/
def contentStrategistProcess (env : Env) (task : TaskR) : Except PyErr Val :=
  if task.ttype = "create_content_plan" then createContentPlan env task.data
  else if task.ttype = "analyze_competitors" then analyzeCompetitors env task.data
  else if task.ttype = "identify_trends" then identifyTrends env task.data
  else .ok .vnone

/-- Embeds `ContentCreatorAgent._create_blog_post` (lines 515-554). -/
def createBlogPost (env : Env) (data : Val) : Except PyErr Val := do
  let topic ← data.get "topic" .vnone
  let targetKeywords ← data.get "keywords" (.vlist [])
  let tone ← data.get "tone" (.vstr "professional")
  let wordCount ← data.get "word_count" (.vint 1000)
  let joined ← targetKeywords.joinComma
  let prompt := "Write a comprehensive " ++ wordCount.pystr
    ++ "-word blog post about " ++ topic.pystr
    ++ ". Target keywords to include naturally: " ++ joined
    ++ " Tone: " ++ tone.pystr
  let blogContent := env.gen prompt
  let docResult := env.accessDocs ("Blog: " ++ topic.pystr) blogContent
  let docId ← docResult.get "document_id" .vnone
  .ok (.vmap [
    ("content", .vmap [
      ("title", .vstr ("AI-Generated: " ++ topic.pystr)),
      ("content", .vstr blogContent),
      ("keywords_targeted", targetKeywords),
      ("word_count", wordCount),
      ("tone", tone)]),
    ("document_id", docId),
    ("status", .vstr "created")])

/-- Embeds `ContentCreatorAgent._create_social_post` (lines 556-597). -/
def createSocialPost (env : Env) (data : Val) : Except PyErr Val := do
  let platform ← data.get "platform" .vnone
  let topic ← data.get "topic" .vnone
  let campaignContext ← data.get "campaign_context" (.vstr "")
  let prompt := "Create a " ++ platform.pystr ++ " post about " ++ topic.pystr
    ++ ". Campaign context: " ++ campaignContext.pystr
  let socialContent := env.gen prompt
  .ok (.vmap [
    ("platform", platform),
    ("content", .vstr socialContent),
    ("character_count", .vint socialContent.length),
    ("status", .vstr "created")])

/-- Embeds `ContentCreatorAgent.process_task` (lines 507-513).  The branch for
`"create_video_script"` calls `self._create_video_script`, a method the
class never defines, so taking it raises `AttributeError`. -/
def contentCreatorProcess (env : Env) (task : TaskR) : Except PyErr Val :=
  if task.ttype = "create_blog_post" then createBlogPost env task.data
  else if task.ttype = "create_social_post" then createSocialPost env task.data
  else if task.ttype = "create_video_script" then
    .error (.attrError "ContentCreatorAgent object has no attribute _create_video_script")
  else .ok .vnone

/-- Embeds `SeoOptimizerAgent._analyze_seo` (lines 608-629). -/
def analyzeSeo (env : Env) (data : Val) : Except PyErr Val := do
  let content ← data.get "content" (.vstr "")
  let url ← data.get "url" .vnone
  let keywords ← data.get "keywords" (.vlist [])
  let joined ← keywords.joinComma
  let prompt := "Analyze the SEO of the following content for the keywords: "
    ++ joined ++ ". URL: " ++ url.pystr
    ++ " Content: " ++ (content.pystr.take 1000) ++ "..."
  let analysis := env.gen prompt
  .ok (.vmap [("seo_analysis", .vstr analysis)])

/-- Embeds `SeoOptimizerAgent._optimize_content` (lines 631-646). -/
def optimizeContent (env : Env) (data : Val) : Except PyErr Val := do
  let content ← data.get "content" .vnone
  let keywords ← data.get "keywords" (.vlist [])
  let joined ← keywords.joinComma
  let prompt := "Optimize the following content to improve its SEO for the keywords: "
    ++ joined ++ ". Content: " ++ content.pystr
  let optimizedContent := env.gen prompt
  .ok (.vmap [("optimized_content", .vstr optimizedContent)])

/-- Embeds `SeoOptimizerAgent.process_task` (lines 602-606). -/
def seoOptimizerProcess (env : Env) (task : TaskR) : Except PyErr Val :=
  if task.ttype = "analyze_seo" then analyzeSeo env task.data
  else if task.ttype = "optimize_content" then optimizeContent env task.data
  else .ok .vnone

/-- Embeds `SocialMediaManagerAgent._schedule_social_post` (lines 655-670). -/
def scheduleSocialPost (env : Env) (data : Val) : Except PyErr Val := do
  let content ← data.get "content" .vnone
  let platform ← data.get "platform" .vnone
  let zapData := Val.vmap [("content", content), ("platform", platform),
    ("schedule_time", .vstr "now")]
  .ok (.vmap [("zapier_result", env.executeZap "social_media_scheduler" zapData)])

/-- Embeds `SocialMediaManagerAgent.process_task` (lines 651-653). -/
def socialMediaManagerProcess (env : Env) (task : TaskR) : Except PyErr Val :=
  if task.ttype = "schedule_social_post" then scheduleSocialPost env task.data
  else .ok .vnone

/-- A concrete environment for witnesses, matching the demo-mode shapes of
the source integrations. -/
def envDemo : Env where
  gen := fun _ => "demo generated content"
  analytics := fun pid => Val.vmap [("property_id", .vstr pid),
    ("note", .vstr "Demo data")]
  accessDocs := fun _ _ => Val.vmap [("document_id", .vstr "doc-42"),
    ("result", .vstr "success")]
  executeZap := fun zapId _ => Val.vmap [("zap_id", .vstr zapId),
    ("status", .vstr "executed"), ("response", .vint 200)]

/-!
Scheduler machine for `BaseAgent.run` (lines 375-392) interleaved with the
`_handle_task` coroutines it spawns (lines 394-409), under CPython asyncio
semantics: the event loop runs ready callbacks in FIFO order;
`asyncio.Queue.get` on a non-empty queue and `asyncio.Queue.put` on an
unbounded queue return without suspending; `asyncio.create_task` only
appends to the ready queue.  Consequently one resumption of the dispatch
loop ("one turn") either requeues the popped head and sleeps (when
`len(active_tasks) >= max_concurrent_tasks`), or pops and spawns tasks
without ever yielding — during which `active_tasks` cannot change, because
only the spawned `_handle_task` coroutines mutate it and none of them has
run yet.
-/

/-- Observable events of a run: the loop spawned a handler for a task,
requeued a task at capacity, a task moved to `in_progress`, or a handler
finished (either completion path of `_handle_task` removes the task from
`active_tasks`). -/
inductive Event where
  | spawned : Nat → Event
  | requeued : Nat → Event
  | inprog : Nat → Event
  | finished : Nat → Event
deriving Repr, DecidableEq

/-- Coroutines in the asyncio ready queue: the dispatch loop itself, the
first segment of `_handle_task` (up to the `await self.process_task`), and
its continuation after that await. -/
inductive Coro where
  | dispatcher : Coro
  | hstart : Nat → Coro
  | hfinish : Nat → Coro
deriving Repr, DecidableEq

/-- One agent plus its slice of the event loop: `maxConc` is
`config.max_concurrent_tasks`, `queue` the pending `task_queue`, `active`
the keys of `active_tasks`, `ready` the FIFO ready queue of the event
loop, `events` the log of observable events so far. -/
structure AgentSt where
  maxConc : Nat
  queue : List Nat
  active : List Nat
  ready : List Coro
  events : List Event
deriving Repr, DecidableEq

/-- Result of one resumption of the dispatch loop. -/
structure TurnResult where
  queue : List Nat
  events : List Event
  spawnedCoros : List Coro
  slept : Bool
deriving Repr, DecidableEq

/-- One turn of `BaseAgent.run` (lines 377-388): pop the head; at capacity
(`len(active_tasks) >= max_concurrent_tasks`) put it back at the BACK of
the queue and `await asyncio.sleep(1)`; otherwise `asyncio.create_task
(self._handle_task(task))` and pop again — without yielding, so
`activeLen` is the same stale value at every check of the turn. -/
def dispatchTurn (maxConc activeLen : Nat) : List Nat → TurnResult
  | [] => ⟨[], [], [], false⟩
  | t :: rest =>
    if maxConc ≤ activeLen then
      ⟨rest ++ [t], [.requeued t], [], true⟩
    else
      let r := dispatchTurn maxConc activeLen rest
      ⟨r.queue, .spawned t :: r.events, .hstart t :: r.spawnedCoros, r.slept⟩

/-- One step of the event loop: run the front coroutine of the ready
queue.  The dispatcher runs a full turn (its sleep wake-up re-enters the
ready queue at the back); `hstart t` is `_handle_task` up to its first
await: it inserts `t` into `active_tasks`, sets `in_progress`, and its
continuation joins the back of the ready queue; `hfinish t` is the rest:
either completion path removes `t` from `active_tasks`. -/
def step (s : AgentSt) : AgentSt :=
  match s.ready with
  | [] => s
  | Coro.dispatcher :: rs =>
    let r := dispatchTurn s.maxConc s.active.length s.queue
    { s with queue := r.queue, events := s.events ++ r.events,
             ready := rs ++ r.spawnedCoros ++ (if r.slept then [Coro.dispatcher] else []) }
  | Coro.hstart t :: rs =>
    { s with active := s.active ++ [t],
             events := s.events ++ [Event.inprog t],
             ready := rs ++ [Coro.hfinish t] }
  | Coro.hfinish t :: rs =>
    { s with active := s.active.erase t,
             events := s.events ++ [Event.finished t],
             ready := rs }

/-- Run `n` event-loop steps. -/
def runSteps : Nat → AgentSt → AgentSt
  | 0, s => s
  | n + 1, s => runSteps n (step s)

/-- Initial state of one agent: tasks `ts` already submitted to the
pending queue in submission order, no task in flight, the dispatch loop
about to resume. -/
def initAgent (ts : List Nat) (m : Nat) : AgentSt :=
  { maxConc := m, queue := ts, active := [], ready := [Coro.dispatcher], events := [] }

/-- The chronological sequence of `in_progress` transitions in a log. -/
def inprogs : List Event → List Nat
  | [] => []
  | Event.inprog t :: rest => t :: inprogs rest
  | _ :: rest => inprogs rest

/-- True when a log contains no requeue event. -/
def noRequeues : List Event → Bool
  | [] => true
  | Event.requeued _ :: _ => false
  | _ :: rest => noRequeues rest

/-!
Coordinator (`CoordinatorAgent`, lines 698-736).  The method body of
`_coordinate_workflow` is embedded parameterized by the value of the
`self.agents` attribute: Python attribute lookup on an object that never
received the attribute raises `AttributeError`, modeled by `none`.
Alongside the Python return value we log which agents were invoked, in
order, so fail-fast behavior is provable.
-/

/-- An agent as the coordinator uses one: its `process_task` method. -/
def Handler : Type := TaskR → Except PyErr Val

/-- Invocation log plus outcome of `_coordinate_workflow`. -/
structure CoordResult where
  calls : List (String × TaskR)
  outcome : Except PyErr Val

/-- The dict `{"workflow_name": name, "workflow_data": wd}` handed to the
coordinator task. -/
def mkCoordData (name : String) (wd : Val) : Val :=
  Val.vmap [("workflow_name", Val.vstr name), ("workflow_data", wd)]

/-- A sub-task as `_coordinate_workflow` builds one:
`Task(id=str(uuid.uuid4()), type=..., priority=1, data=...)`. -/
def coordStepTask (tid ttype : String) (d : Val) (now : Nat) : TaskR :=
  { id := tid, ttype := ttype, priority := 1, data := d, createdAt := now }

/-- The `AttributeError` raised by the `self.agents` lookup on the
coordinator (no constructor in its method-resolution order assigns that
attribute). -/
def coordAgentsErr : PyErr :=
  .attrError "CoordinatorAgent object has no attribute agents"

/-- The `{"status": "unknown_workflow"}` sentinel (line 736). -/
def unknownWorkflowVal : Val :=
  Val.vmap [("status", Val.vstr "unknown_workflow")]

/-- One trace entry `{"agent": name, "result": r}` (lines 729-733). -/
def stepEntry (agent : String) (r : Val) : Val :=
  Val.vmap [("agent", Val.vstr agent), ("result", r)]

/-- Embeds `CoordinatorAgent._coordinate_workflow` (lines 705-736).  `agents` is
the value of the `self.agents` attribute (`none` = attribute missing, so
the lookup raises `AttributeError`); `ids` supplies the `uuid.uuid4()`
results; `now` the `datetime.now()` default of `created_at`.  For
`"full_content_workflow"`: step 1 calls `content_creator.process_task` on
`workflow_data`; step 2 calls `seo_optimizer.process_task` on
`{"content": content_result["content"]["content"], "keywords":
workflow_data.get("keywords", [])}`; step 3 calls
`social_media_manager.process_task` on `{"content":
seo_result["optimized_content"], "platform": "twitter"}`; the trace of
`{"agent", "result"}` entries is assembled only in the final return.  Any
other name returns the `unknown_workflow` sentinel. -/
def coordinateWorkflow (agents : Option (String → Option Handler)) (data : Val)
    (ids : Nat → String) (now : Nat) : CoordResult :=
  match data.get "workflow_name" .vnone with
  | .error e => ⟨[], .error e⟩
  | .ok wname =>
    match data.get "workflow_data" .vnone with
    | .error e => ⟨[], .error e⟩
    | .ok wdata =>
      if wname.eqStr "full_content_workflow" then
        match agents with
        | none => ⟨[], .error coordAgentsErr⟩
        | some ag =>
          match ag "content_creator" with
          | none => ⟨[], .error (.keyError "content_creator")⟩
          | some h1 =>
            let t1 := coordStepTask (ids 0) "create_blog_post" wdata now
            match h1 t1 with
            | .error e => ⟨[("content_creator", t1)], .error e⟩
            | .ok r1 =>
              match (r1.sub "content").bind (fun c => c.sub "content") with
              | .error e => ⟨[("content_creator", t1)], .error e⟩
              | .ok innerContent =>
                match wdata.get "keywords" (.vlist []) with
                | .error e => ⟨[("content_creator", t1)], .error e⟩
                | .ok kws =>
                  match ag "seo_optimizer" with
                  | none => ⟨[("content_creator", t1)], .error (.keyError "seo_optimizer")⟩
                  | some h2 =>
                    let t2 := coordStepTask (ids 1) "optimize_content"
                      (Val.vmap [("content", innerContent), ("keywords", kws)]) now
                    match h2 t2 with
                    | .error e => ⟨[("content_creator", t1), ("seo_optimizer", t2)], .error e⟩
                    | .ok r2 =>
                      match r2.sub "optimized_content" with
                      | .error e => ⟨[("content_creator", t1), ("seo_optimizer", t2)], .error e⟩
                      | .ok optContent =>
                        match ag "social_media_manager" with
                        | none => ⟨[("content_creator", t1), ("seo_optimizer", t2)],
                            .error (.keyError "social_media_manager")⟩
                        | some h3 =>
                          let t3 := coordStepTask (ids 2) "schedule_social_post"
                            (Val.vmap [("content", optContent), ("platform", Val.vstr "twitter")]) now
                          match h3 t3 with
                          | .error e => ⟨[("content_creator", t1), ("seo_optimizer", t2),
                              ("social_media_manager", t3)], .error e⟩
                          | .ok r3 =>
                            ⟨[("content_creator", t1), ("seo_optimizer", t2),
                              ("social_media_manager", t3)],
                             .ok (Val.vmap [("workflow", wname),
                               ("steps", Val.vlist [stepEntry "content_creator" r1,
                                 stepEntry "seo_optimizer" r2,
                                 stepEntry "social_media_manager" r3])])⟩
      else ⟨[], .ok unknownWorkflowVal⟩

/-- Embeds `CoordinatorAgent.process_task` (lines 701-703): dispatches
`"coordinate_workflow"` to `_coordinate_workflow`; any other type falls
through and returns `None`. -/
def coordinatorProcess (agents : Option (String → Option Handler))
    (ids : Nat → String) (now : Nat) (task : TaskR) : Except PyErr Val :=
  if task.ttype = "coordinate_workflow" then
    (coordinateWorkflow agents task.data ids now).outcome
  else .ok .vnone

/-- The attributes `BaseAgent.__init__` (lines 359-365) sets on every
agent: `config`, `task_queue`, `active_tasks` (plus the collaborator
handles).  There is no `agents` attribute; `CoordinatorAgent` defines no
`__init__` of its own, so on the coordinator instance the `self.agents`
lookup of `_coordinate_workflow` raises `AttributeError`, modeled by
`agents := none`. -/
structure BaseAgentState where
  name : String
  maxConcurrentTasks : Nat
  taskQueue : List Nat
  activeTasks : List Nat
  agents : Option (String → Option Handler)

/-- Embeds `BaseAgent.__init__`: fresh queue, empty in-flight set, and no
`agents` attribute ever assigned. -/
def baseAgentInit (name : String) (maxConc : Nat) : BaseAgentState :=
  { name := name, maxConcurrentTasks := maxConc, taskQueue := [],
    activeTasks := [], agents := none }

/-- The coordinator as `ContentMarketingFramework.initialize` constructs
it (lines 833-854): `AgentConfig` with default `max_concurrent_tasks=3`,
built through `CoordinatorAgent(config, ...)`, which runs only
`BaseAgent.__init__`. -/
def coordinatorInstance : BaseAgentState :=
  baseAgentInit "coordinator" 3

/-!
`ContentMarketingFramework.execute_workflow` (lines 884-914): generates a
fresh task id, maps the workflow name through a four-entry table with
default agent `"content_strategist"`, asks that agent (every mapped name
is registered) for `generate_content` on a prompt derived from the name
and data, and returns the task id.  `generate_content` delegates to
`GoogleGeminiIntegration.generate_content`, which catches every exception
and returns fallback text, so the whole call is total.
-/

/-- The `workflow_mapping` dict of `execute_workflow` (lines 890-895). -/
def workflowMapping : List (String × String) :=
  [("content_creation_workflow", "content_creator"),
   ("seo_optimization_workflow", "seo_optimizer"),
   ("social_media_workflow", "social_media_manager"),
   ("analytics_workflow", "analytics_agent")]

/-- The agent names registered by `ContentMarketingFramework.initialize`
(lines 802-854). -/
def frameworkAgentNames : List String :=
  ["content_strategist", "content_creator", "seo_optimizer",
   "social_media_manager", "analytics_agent", "coordinator"]

/-- Observable outcome of `ContentMarketingFramework.execute_workflow`:
the returned task id, which agent was selected, whether the registered-
agent branch was taken, and the generated (then discarded) content. -/
structure WorkflowExec where
  taskId : String
  agentName : String
  usedFrameworkAgent : Bool
  generated : String

/-- Embeds `ContentMarketingFramework.execute_workflow` (lines 884-914): `gen`
is the (total) content generation collaborator shared by every agent and
by the direct-Gemini fallback; `taskId` the `uuid.uuid4()` result. -/
def executeWorkflow (registeredAgents : List String) (gen : String → String)
    (taskId : String) (workflowName : String) (workflowData : Val) : WorkflowExec :=
  let agentName := (workflowMapping.lookup workflowName).getD "content_strategist"
  let prompt := "Create " ++ (workflowName.replace "_" " ") ++ " for: " ++ workflowData.pystr
  if registeredAgents.contains agentName then
    { taskId := taskId, agentName := agentName, usedFrameworkAgent := true,
      generated := gen prompt }
  else
    { taskId := taskId, agentName := agentName, usedFrameworkAgent := false,
      generated := gen prompt }

/-!  Theorems for the claims.  -/

/-- Agent at `max_concurrent_tasks = 1` whose queue already holds two
tasks when the dispatch loop resumes; both handlers suspend at their first
await. -/
def c1Init : AgentSt :=
  { maxConc := 1, queue := [7, 8], active := [], ready := [Coro.dispatcher], events := [] }

/-- Claim C1: the spec asserts that in every reachable state the in-flight
set of an agent never exceeds `max_concurrent_tasks` — the code violates
this.  With a ceiling of 1 and two queued tasks, the dispatch loop pops
and spawns both before either handler registers itself in `active_tasks`
(`queue.get` on a non-empty queue and `create_task` never yield), so three
event-loop steps reach a state with two tasks in flight. -/
theorem C1_ceiling_exceeded :
    c1Init.maxConc = 1 ∧ (runSteps 3 c1Init).active.length > c1Init.maxConc := by
  decide

/-- A well-formed task of a supported type, on which the lifecycle theorem
is witnessed. -/
def c2Task : TaskR :=
  { id := "t1", ttype := "identify_trends", priority := 1, data := Val.vmap [], createdAt := 0 }

/-- Claim C2 (amended): status moves only forward through
`pending → in_progress → {completed, failed}`, and `completed_at` is
assigned exactly once, precisely at the transition to `completed`; at the
transition to `failed` it is NOT assigned and stays `None`. -/
theorem C2_status_lifecycle (t : TaskR) (outcome : Except PyErr Val) (now : Nat)
    (hst : t.status = Status.pending) (hca : t.completedAt = none) :
    (handleTaskStart t).status = Status.inProgress ∧
    Status.rank t.status < Status.rank (handleTaskStart t).status ∧
    Status.rank (handleTaskStart t).status < Status.rank (handleTask t outcome now).status ∧
    ((handleTask t outcome now).status = Status.completed ∨
      (handleTask t outcome now).status = Status.failed) ∧
    ((handleTask t outcome now).completedAt = some now ↔
      (handleTask t outcome now).status = Status.completed) := by
  cases outcome <;>
    simp_all [handleTask, handleTaskStart, handleTaskFinish, Status.rank]

/-- Witness for C2: a pending task that completes successfully. -/
theorem C2_status_lifecycle_w :
    (handleTaskStart c2Task).status = Status.inProgress ∧
    Status.rank c2Task.status < Status.rank (handleTaskStart c2Task).status ∧
    Status.rank (handleTaskStart c2Task).status
      < Status.rank (handleTask c2Task (Except.ok Val.vnone) 5).status ∧
    ((handleTask c2Task (Except.ok Val.vnone) 5).status = Status.completed ∨
      (handleTask c2Task (Except.ok Val.vnone) 5).status = Status.failed) ∧
    ((handleTask c2Task (Except.ok Val.vnone) 5).completedAt = some 5 ↔
      (handleTask c2Task (Except.ok Val.vnone) 5).status = Status.completed) :=
  C2_status_lifecycle c2Task (Except.ok Val.vnone) 5 rfl rfl

/-- A `create_content_plan` task whose payload is `None`, so
`data.get(...)` inside the handler raises and `_handle_task` takes its
failure path. -/
def c2FailTask : TaskR :=
  { id := "t2", ttype := "create_content_plan", priority := 1, data := Val.vnone, createdAt := 0 }

/-- Counterexample to claim C2 as stated: on the transition to `failed`
the source assigns no `completed_at` (lines 404-407 set only `status` and
`result`), so a failed task ends with `completed_at = None`, contradicting
"completed_at is assigned ... precisely at the transition to completed or
to failed". -/
theorem C2_cex_failed_without_timestamp :
    (handleTask c2FailTask (contentStrategistProcess envDemo c2FailTask) 5).status
      = Status.failed ∧
    (handleTask c2FailTask (contentStrategistProcess envDemo c2FailTask) 5).completedAt
      = none :=
  ⟨rfl, rfl⟩

/-- A task whose type none of the strategist branches handles. -/
def c3Task : TaskR :=
  { id := "t3", ttype := "write_haiku", priority := 1, data := Val.vmap [], createdAt := 0 }

/-- Claim C3: the spec requires an unsupported task type to end in a
failure outcome, never a `None` result or `completed` — the code violates
this (the spec itself flags it as a source defect): the if/elif chain of
`process_task` falls through, the method returns `None`, no exception is
raised, and `_handle_task` marks the task `completed` with `result =
None`. -/
theorem C3_unsupported_completes_with_none :
    contentStrategistProcess envDemo c3Task = Except.ok Val.vnone ∧
    (handleTask c3Task (contentStrategistProcess envDemo c3Task) 9).status
      = Status.completed ∧
    (handleTask c3Task (contentStrategistProcess envDemo c3Task) 9).result = Val.vnone :=
  ⟨rfl, rfl, rfl⟩

/-- Claim C6: invoking `_coordinate_workflow` with any workflow name other
than the one defined workflow (`"full_content_workflow"`) returns the
`{"status": "unknown_workflow"}` sentinel, raises nothing, and invokes no
agent — regardless of whether the `agents` attribute even exists. -/
theorem C6_unknown_workflow_sentinel (name : String) (wd : Val)
    (agents : Option (String → Option Handler)) (ids : Nat → String) (now : Nat)
    (h : name ≠ "full_content_workflow") :
    coordinateWorkflow agents (mkCoordData name wd) ids now
      = ⟨[], Except.ok unknownWorkflowVal⟩ := by
  simp [coordinateWorkflow, mkCoordData, Val.get, List.lookup, Val.eqStr, h]

/-- Witness for C6 at a concrete unknown name. -/
theorem C6_unknown_workflow_sentinel_w :
    coordinateWorkflow none (mkCoordData "daily_digest" Val.vnone) (fun _ => "id") 0
      = ⟨[], Except.ok unknownWorkflowVal⟩ :=
  C6_unknown_workflow_sentinel "daily_digest" Val.vnone none (fun _ => "id") 0 (by decide)

/-- Claim C7: a task popped by the dispatch loop while
`len(active_tasks) >= max_concurrent_tasks` is never discarded: it is put
back at the BACK of the pending queue (behind all currently-pending
tasks), a requeue is the only event, the sleep of the loop re-schedules the
dispatcher behind the currently ready coroutines before it re-checks
admission, and the in-flight set is untouched. -/
theorem C7_requeue_at_capacity (s : AgentSt) (t : Nat) (rest : List Nat) (rs : List Coro)
    (hready : s.ready = Coro.dispatcher :: rs)
    (hqueue : s.queue = t :: rest)
    (hcap : s.maxConc ≤ s.active.length) :
    (step s).queue = rest ++ [t] ∧
    t ∈ (step s).queue ∧
    (step s).events = s.events ++ [Event.requeued t] ∧
    (step s).ready = rs ++ [Coro.dispatcher] ∧
    (step s).active = s.active := by
  simp [step, hready, hqueue, dispatchTurn, hcap]

/-- A saturated agent state: ceiling 1, one task in flight, two pending. -/
def c7State : AgentSt :=
  { maxConc := 1, queue := [4, 6], active := [9],
    ready := [Coro.dispatcher, Coro.hfinish 9], events := [] }

/-- Witness for C7 on the saturated state. -/
theorem C7_requeue_at_capacity_w :
    (step c7State).queue = [6] ++ [4] ∧
    4 ∈ (step c7State).queue ∧
    (step c7State).events = c7State.events ++ [Event.requeued 4] ∧
    (step c7State).ready = [Coro.hfinish 9] ++ [Coro.dispatcher] ∧
    (step c7State).active = c7State.active :=
  C7_requeue_at_capacity c7State 4 [6] [Coro.hfinish 9] rfl rfl (by decide)

/-- Claim C9: no constructor ever sets an `agents` attribute on the
coordinator (`BaseAgent.__init__` is the only initializer that runs), so
for the defined workflow the `self.agents` lookup raises `AttributeError`
before step 1 invokes any agent; `_handle_task` then marks the
coordination task `failed` with an error result; and every non-raising
path through `_coordinate_workflow` returns the `unknown_workflow`
sentinel. -/
theorem C9_agents_attribute_missing (wd : Val) (ids : Nat → String) (now clock : Nat)
    (t : TaskR) (htype : t.ttype = "coordinate_workflow")
    (hdata : t.data = mkCoordData "full_content_workflow" wd) :
    (coordinateWorkflow coordinatorInstance.agents
        (mkCoordData "full_content_workflow" wd) ids now).calls = [] ∧
    (coordinateWorkflow coordinatorInstance.agents
        (mkCoordData "full_content_workflow" wd) ids now).outcome
      = Except.error coordAgentsErr ∧
    (handleTask t (coordinatorProcess coordinatorInstance.agents ids now t) clock).status
      = Status.failed ∧
    (handleTask t (coordinatorProcess coordinatorInstance.agents ids now t) clock).result
      = Val.vmap [("error", Val.vstr coordAgentsErr.msg)] ∧
    (∀ (d : Val) (r : Val),
      (coordinateWorkflow coordinatorInstance.agents d ids now).outcome = Except.ok r →
      r = unknownWorkflowVal) := by
  have hcoord : coordinateWorkflow coordinatorInstance.agents
      (mkCoordData "full_content_workflow" wd) ids now
      = ⟨[], Except.error coordAgentsErr⟩ := by
    simp [coordinateWorkflow, mkCoordData, Val.get, List.lookup, Val.eqStr,
      coordinatorInstance, baseAgentInit]
  refine ⟨by rw [hcoord], by rw [hcoord], ?_, ?_, ?_⟩
  · simp [coordinatorProcess, htype, hdata, hcoord, handleTask, handleTaskStart,
      handleTaskFinish]
  · simp [coordinatorProcess, htype, hdata, hcoord, handleTask, handleTaskStart,
      handleTaskFinish]
  · intro d r hr
    have hag : coordinatorInstance.agents = none := rfl
    rw [hag] at hr
    unfold coordinateWorkflow at hr
    split at hr
    · simp at hr
    · split at hr
      · simp at hr
      · split at hr
        · simp at hr
        · simpa using hr.symm

/-- A concrete `coordinate_workflow` task for the defined workflow. -/
def c9Task : TaskR :=
  { id := "w1", ttype := "coordinate_workflow", priority := 1,
    data := mkCoordData "full_content_workflow" Val.vnone, createdAt := 0 }

/-- Witness for C9 on a concrete coordination task. -/
theorem C9_agents_attribute_missing_w :
    (coordinateWorkflow coordinatorInstance.agents
        (mkCoordData "full_content_workflow" Val.vnone) (fun _ => "id") 0).calls = [] ∧
    (coordinateWorkflow coordinatorInstance.agents
        (mkCoordData "full_content_workflow" Val.vnone) (fun _ => "id") 0).outcome
      = Except.error coordAgentsErr ∧
    (handleTask c9Task
        (coordinatorProcess coordinatorInstance.agents (fun _ => "id") 0 c9Task) 3).status
      = Status.failed := by
  have h := C9_agents_attribute_missing Val.vnone (fun _ => "id") 0 3 c9Task rfl rfl
  exact ⟨h.1, h.2.1, h.2.2.1⟩

/-- Claim C10: `ContentMarketingFramework.execute_workflow` returns the
freshly generated task id for EVERY workflow name and never reports an
unknown-workflow error; a name outside `workflow_mapping` silently falls
back to the `content_strategist` agent (which is registered), so at this
interface an unknown name is indistinguishable from a known one. -/
theorem C10_execute_workflow_total (name : String) (wd : Val) (gen : String → String)
    (tid : String) :
    (executeWorkflow frameworkAgentNames gen tid name wd).taskId = tid ∧
    (executeWorkflow frameworkAgentNames gen tid name wd).usedFrameworkAgent = true ∧
    (workflowMapping.lookup name = none →
      (executeWorkflow frameworkAgentNames gen tid name wd).agentName
        = "content_strategist") := by
  refine ⟨?_, ?_, ?_⟩
  · simp only [executeWorkflow]
    split <;> rfl
  · by_cases h1 : name = "content_creation_workflow"
    · subst h1; rfl
    by_cases h2 : name = "seo_optimization_workflow"
    · subst h2; rfl
    by_cases h3 : name = "social_media_workflow"
    · subst h3; rfl
    by_cases h4 : name = "analytics_workflow"
    · subst h4; rfl
    have hl : workflowMapping.lookup name = none := by
      simp [workflowMapping, List.lookup,
        beq_eq_false_iff_ne.mpr h1, beq_eq_false_iff_ne.mpr h2,
        beq_eq_false_iff_ne.mpr h3, beq_eq_false_iff_ne.mpr h4]
    simp only [executeWorkflow, hl, Option.getD_none]
    rfl
  · intro hl
    simp only [executeWorkflow, hl, Option.getD_none]
    rfl

/-- Witness for C10 at a name outside the mapping. -/
theorem C10_execute_workflow_total_w :
    (executeWorkflow frameworkAgentNames (fun _ => "demo") "tid-1"
        "mystery_workflow" Val.vnone).taskId = "tid-1" ∧
    (executeWorkflow frameworkAgentNames (fun _ => "demo") "tid-1"
        "mystery_workflow" Val.vnone).usedFrameworkAgent = true ∧
    (executeWorkflow frameworkAgentNames (fun _ => "demo") "tid-1"
        "mystery_workflow" Val.vnone).agentName = "content_strategist" := by
  have h := C10_execute_workflow_total "mystery_workflow" Val.vnone (fun _ => "demo") "tid-1"
  exact ⟨h.1, h.2.1, h.2.2 (by rfl)⟩

/-- Step-1 handler for the C4 scenario: succeeds with a result of the
shape `_create_blog_post` produces. -/
def c4H1 : Handler :=
  fun _ => Except.ok (Val.vmap [("content", Val.vmap [("content", Val.vstr "draft")])])

/-- Step-2 handler for the C4 scenario: fails (e.g. a collaborator call
raised). -/
def c4H2 : Handler :=
  fun _ => Except.error (PyErr.exn "boom")

/-- Step-3 handler for the C4 scenario: would succeed, but must never be
reached. -/
def c4H3 : Handler :=
  fun _ => Except.ok (Val.vmap [])

/-- An agents mapping for the C4 scenario. -/
def c4Agents : String → Option Handler := fun n =>
  if n = "content_creator" then some c4H1
  else if n = "seo_optimizer" then some c4H2
  else if n = "social_media_manager" then some c4H3
  else none

/-- Claim C4 (amended): when step `i` of the defined workflow fails, no
later step runs and the invocation fails, but the already-produced trace
entries are NOT returned to the caller: the exception propagates out of
`_coordinate_workflow` (the steps list is assembled only after all three
steps succeed), so the caller sees only the failure.  The invocation log
records exactly the agents invoked — for a step-2 failure, steps 1 and 2
and never step 3. -/
theorem C4_failfast_no_trace (ag : String → Option Handler) (h1 h2 h3 : Handler)
    (wd r1 c kw : Val) (e : PyErr) (ids : Nat → String) (now : Nat)
    (hag1 : ag "content_creator" = some h1)
    (hag2 : ag "seo_optimizer" = some h2)
    (_hag3 : ag "social_media_manager" = some h3)
    (hr1 : h1 (coordStepTask (ids 0) "create_blog_post" wd now) = Except.ok r1)
    (hc : (r1.sub "content").bind (fun v => v.sub "content") = Except.ok c)
    (hkw : wd.get "keywords" (Val.vlist []) = Except.ok kw)
    (he : h2 (coordStepTask (ids 1) "optimize_content"
        (Val.vmap [("content", c), ("keywords", kw)]) now) = Except.error e) :
    coordinateWorkflow (some ag) (mkCoordData "full_content_workflow" wd) ids now
      = ⟨[("content_creator", coordStepTask (ids 0) "create_blog_post" wd now),
          ("seo_optimizer", coordStepTask (ids 1) "optimize_content"
            (Val.vmap [("content", c), ("keywords", kw)]) now)],
         Except.error e⟩ := by
  have hwn : (mkCoordData "full_content_workflow" wd).get "workflow_name" .vnone
      = Except.ok (Val.vstr "full_content_workflow") := rfl
  have hwd : (mkCoordData "full_content_workflow" wd).get "workflow_data" .vnone
      = Except.ok wd := rfl
  unfold coordinateWorkflow
  simp [hwn, hwd, Val.eqStr, hag1, hag2, hr1, hc, hkw, he]

/-- Witness for the amended C4 on concrete handlers. -/
theorem C4_failfast_no_trace_w :
    coordinateWorkflow (some c4Agents) (mkCoordData "full_content_workflow" (Val.vmap []))
        (fun _ => "id") 0
      = ⟨[("content_creator", coordStepTask "id" "create_blog_post" (Val.vmap []) 0),
          ("seo_optimizer", coordStepTask "id" "optimize_content"
            (Val.vmap [("content", Val.vstr "draft"), ("keywords", Val.vlist [])]) 0)],
         Except.error (PyErr.exn "boom")⟩ :=
  C4_failfast_no_trace c4Agents c4H1 c4H2 c4H3 (Val.vmap [])
    (Val.vmap [("content", Val.vmap [("content", Val.vstr "draft")])])
    (Val.vstr "draft") (Val.vlist []) (PyErr.exn "boom") (fun _ => "id") 0
    rfl rfl rfl rfl rfl rfl rfl

/-- Counterexample to claim C4 as stated: on a step-2 failure, the caller
does not receive a 2-entry trace — `_coordinate_workflow` has no
try/except, the exception propagates, and `_handle_task` stores only
`{"error": ...}`; the stored result has no "steps" entry at all. -/
theorem C4_cex_no_partial_trace :
    (coordinateWorkflow (some c4Agents) (mkCoordData "full_content_workflow" (Val.vmap []))
        (fun _ => "id") 0).outcome = Except.error (PyErr.exn "boom") ∧
    (handleTask
        (coordStepTask "w" "coordinate_workflow"
          (mkCoordData "full_content_workflow" (Val.vmap [])) 0)
        (coordinatorProcess (some c4Agents) (fun _ => "id") 0
          (coordStepTask "w" "coordinate_workflow"
            (mkCoordData "full_content_workflow" (Val.vmap [])) 0)) 3).result
      = Val.vmap [("error", Val.vstr "boom")] ∧
    Val.sub (Val.vmap [("error", Val.vstr "boom")]) "steps"
      = Except.error (PyErr.keyError "steps") :=
  ⟨rfl, rfl, rfl⟩

/-- An agents mapping built from the real embedded agent handlers over the
demo environment, as `initialize` wires them. -/
def c5Agents : String → Option Handler := fun n =>
  if n = "content_creator" then some (contentCreatorProcess envDemo)
  else if n = "seo_optimizer" then some (seoOptimizerProcess envDemo)
  else if n = "social_media_manager" then some (socialMediaManagerProcess envDemo)
  else if n = "content_strategist" then some (contentStrategistProcess envDemo)
  else none

/-- Counterexample to claim C5 as stated: the one defined workflow is
named `"full_content_workflow"`, not `"full_pipeline"`; invoking
`"full_pipeline"` — even with all three agents available and succeeding —
returns the `unknown_workflow` sentinel and an empty invocation log, not a
3-entry trace. -/
theorem C5_cex_wrong_name :
    coordinateWorkflow (some c5Agents)
        (mkCoordData "full_pipeline" (Val.vmap [("topic", Val.vstr "x")]))
        (fun _ => "id") 0
      = ⟨[], Except.ok unknownWorkflowVal⟩ :=
  rfl

/-- Claim C5 (amended): running the defined workflow
`"full_content_workflow"` with initial data `{topic: x}` on a coordinator
whose `agents` attribute supplies the three agents (the shipped
constructor never sets it — claim C9), with all three handlers
succeeding, returns a trace of exactly 3 step entries tagged
content_creator / seo_optimizer / social_media_manager, where step 2 is
invoked on `{"content": r1["content"]["content"], "keywords":
workflow_data.get("keywords", [])}` (derived from the declared
output field of step 1) and step 3 on `{"content": r2["optimized_content"],
"platform": "twitter"}` (derived from the result of step 2). -/
theorem C5_full_defined_workflow (ag : String → Option Handler) (h1 h2 h3 : Handler)
    (wd r1 c kw r2 o r3 : Val) (ids : Nat → String) (now : Nat)
    (hag1 : ag "content_creator" = some h1)
    (hag2 : ag "seo_optimizer" = some h2)
    (hag3 : ag "social_media_manager" = some h3)
    (hr1 : h1 (coordStepTask (ids 0) "create_blog_post" wd now) = Except.ok r1)
    (hc : (r1.sub "content").bind (fun v => v.sub "content") = Except.ok c)
    (hkw : wd.get "keywords" (Val.vlist []) = Except.ok kw)
    (hr2 : h2 (coordStepTask (ids 1) "optimize_content"
        (Val.vmap [("content", c), ("keywords", kw)]) now) = Except.ok r2)
    (ho : r2.sub "optimized_content" = Except.ok o)
    (hr3 : h3 (coordStepTask (ids 2) "schedule_social_post"
        (Val.vmap [("content", o), ("platform", Val.vstr "twitter")]) now) = Except.ok r3) :
    coordinateWorkflow (some ag) (mkCoordData "full_content_workflow" wd) ids now
      = ⟨[("content_creator", coordStepTask (ids 0) "create_blog_post" wd now),
          ("seo_optimizer", coordStepTask (ids 1) "optimize_content"
            (Val.vmap [("content", c), ("keywords", kw)]) now),
          ("social_media_manager", coordStepTask (ids 2) "schedule_social_post"
            (Val.vmap [("content", o), ("platform", Val.vstr "twitter")]) now)],
         Except.ok (Val.vmap [("workflow", Val.vstr "full_content_workflow"),
           ("steps", Val.vlist [stepEntry "content_creator" r1,
             stepEntry "seo_optimizer" r2,
             stepEntry "social_media_manager" r3])])⟩ := by
  have hwn : (mkCoordData "full_content_workflow" wd).get "workflow_name" .vnone
      = Except.ok (Val.vstr "full_content_workflow") := rfl
  have hwd : (mkCoordData "full_content_workflow" wd).get "workflow_data" .vnone
      = Except.ok wd := rfl
  unfold coordinateWorkflow
  simp [hwn, hwd, Val.eqStr, hag1, hag2, hag3, hr1, hc, hkw, hr2, ho, hr3]

/-- The `{topic: "x"}` initial data of the C5 scenario. -/
def c5Wd : Val := Val.vmap [("topic", Val.vstr "x")]

/-- Step-1 result of the real content-creator handler on `c5Wd` under the
demo environment. -/
def c5R1 : Val := Val.vmap [
  ("content", Val.vmap [
    ("title", Val.vstr "AI-Generated: x"),
    ("content", Val.vstr "demo generated content"),
    ("keywords_targeted", Val.vlist []),
    ("word_count", Val.vint 1000),
    ("tone", Val.vstr "professional")]),
  ("document_id", Val.vstr "doc-42"),
  ("status", Val.vstr "created")]

/-- Step-2 result of the real SEO-optimizer handler. -/
def c5R2 : Val := Val.vmap [("optimized_content", Val.vstr "demo generated content")]

/-- Step-3 result of the real social-media-manager handler. -/
def c5R3 : Val := Val.vmap [("zapier_result", Val.vmap [
  ("zap_id", Val.vstr "social_media_scheduler"),
  ("status", Val.vstr "executed"),
  ("response", Val.vint 200)])]

/-- Witness for the amended C5 on the real embedded handlers. -/
theorem C5_full_defined_workflow_w :
    coordinateWorkflow (some c5Agents) (mkCoordData "full_content_workflow" c5Wd)
        (fun _ => "id") 0
      = ⟨[("content_creator", coordStepTask "id" "create_blog_post" c5Wd 0),
          ("seo_optimizer", coordStepTask "id" "optimize_content"
            (Val.vmap [("content", Val.vstr "demo generated content"),
              ("keywords", Val.vlist [])]) 0),
          ("social_media_manager", coordStepTask "id" "schedule_social_post"
            (Val.vmap [("content", Val.vstr "demo generated content"),
              ("platform", Val.vstr "twitter")]) 0)],
         Except.ok (Val.vmap [("workflow", Val.vstr "full_content_workflow"),
           ("steps", Val.vlist [stepEntry "content_creator" c5R1,
             stepEntry "seo_optimizer" c5R2,
             stepEntry "social_media_manager" c5R3])])⟩ :=
  C5_full_defined_workflow c5Agents (contentCreatorProcess envDemo)
    (seoOptimizerProcess envDemo) (socialMediaManagerProcess envDemo)
    c5Wd c5R1 (Val.vstr "demo generated content") (Val.vlist [])
    c5R2 (Val.vstr "demo generated content") c5R3 (fun _ => "id") 0
    rfl rfl rfl rfl rfl rfl rfl rfl rfl

/-- While the in-flight count is strictly below the ceiling, one
dispatcher turn spawns a handler for every queued task, in queue order:
the capacity check reads `len(active_tasks)`, which cannot change during
the turn because the spawned handlers have not run yet. -/
theorem dispatchTurn_spawnAll (m a : Nat) (h : a < m) (q : List Nat) :
    dispatchTurn m a q = ⟨[], q.map Event.spawned, q.map Coro.hstart, false⟩ := by
  induction q with
  | nil => rfl
  | cons t rest ih => simp [dispatchTurn, Nat.not_le.mpr h, ih]

/-- Running one step per pending handler-start coroutine appends the
corresponding `in_progress` events in ready-queue order, regardless of
what trails them in the ready queue. -/
theorem runSteps_hstarts (us : List Nat) :
    ∀ (s : AgentSt) (fs : List Coro), s.ready = us.map Coro.hstart ++ fs →
      (runSteps us.length s).events = s.events ++ us.map Event.inprog := by
  induction us with
  | nil => intro s fs _; simp [runSteps]
  | cons t us ih =>
    intro s fs h
    have h1 : (step s).ready = us.map Coro.hstart ++ (fs ++ [Coro.hfinish t]) := by
      simp [step, h]
    have h2 : (step s).events = s.events ++ [Event.inprog t] := by
      simp [step, h]
    show (runSteps us.length (step s)).events = _
    rw [ih (step s) (fs ++ [Coro.hfinish t]) h1, h2]
    simp

/-- Full event trace of a fresh agent run: from an idle agent with tasks
`ts` pending and a positive ceiling, the first dispatcher turn spawns
every task (the admission check reads the stale in-flight count 0), and
the handlers then mark `in_progress` in the same order. -/
theorem run_events_initAgent (ts : List Nat) (m : Nat) (hm : 0 < m) :
    (runSteps (ts.length + 1) (initAgent ts m)).events
      = ts.map Event.spawned ++ ts.map Event.inprog := by
  have hdt := dispatchTurn_spawnAll m 0 hm ts
  have h1r : (step (initAgent ts m)).ready = ts.map Coro.hstart := by
    simp [step, initAgent, hdt]
  have h1e : (step (initAgent ts m)).events = ts.map Event.spawned := by
    simp [step, initAgent, hdt]
  show (runSteps ts.length (step (initAgent ts m))).events = _
  rw [runSteps_hstarts ts (step (initAgent ts m)) [] (by rw [h1r, List.append_nil]), h1e]

/-- The function `inprogs` distributes over append. -/
theorem inprogs_append (a b : List Event) : inprogs (a ++ b) = inprogs a ++ inprogs b := by
  induction a with
  | nil => rfl
  | cons e rest ih => cases e <;> simp [inprogs, ih]

/-- Spawn events contribute no `in_progress` transition. -/
theorem inprogs_map_spawned (ts : List Nat) : inprogs (ts.map Event.spawned) = [] := by
  induction ts with
  | nil => rfl
  | cons t rest ih => simp [inprogs, ih]

/-- The `in_progress` transitions of a block of `inprog` events are the
tasks themselves, in order. -/
theorem inprogs_map_inprog (ts : List Nat) : inprogs (ts.map Event.inprog) = ts := by
  induction ts with
  | nil => rfl
  | cons t rest ih => simp [inprogs, ih]

/-- The function `noRequeues` over an append. -/
theorem noRequeues_append (a b : List Event) :
    noRequeues (a ++ b) = (noRequeues a && noRequeues b) := by
  induction a with
  | nil => simp [noRequeues]
  | cons e rest ih => cases e <;> simp [noRequeues, ih]

/-- Spawn events are not requeues. -/
theorem noRequeues_map_spawned (ts : List Nat) :
    noRequeues (ts.map Event.spawned) = true := by
  induction ts with
  | nil => rfl
  | cons t rest ih => simp [noRequeues, ih]

/-- In-progress events are not requeues. -/
theorem noRequeues_map_inprog (ts : List Nat) :
    noRequeues (ts.map Event.inprog) = true := by
  induction ts with
  | nil => rfl
  | cons t rest ih => simp [noRequeues, ih]

/-- In a duplicate-free list, the index of the `i`-th element is `i`. -/
theorem indexOf_get_of_nodup :
    ∀ (l : List Nat), l.Nodup → ∀ (i : Nat) (hi : i < l.length),
      l.indexOf (l.get ⟨i, hi⟩) = i := by
  intro l
  induction l with
  | nil => intro _ i hi; exact absurd hi (by simp)
  | cons a rest ih =>
    intro hnd i hi
    cases i with
    | zero => simp
    | succ n =>
      have hn : n < rest.length := by simpa using hi
      have hmem : rest.get ⟨n, hn⟩ ∈ rest := List.get_mem _ _ _
      have hne : rest.get ⟨n, hn⟩ ≠ a := fun hcontra =>
        (List.nodup_cons.mp hnd).1 (hcontra ▸ hmem)
      show List.indexOf (rest.get ⟨n, hn⟩) (a :: rest) = n + 1
      rw [List.indexOf_cons_ne _ (Ne.symm hne),
        ih (List.nodup_cons.mp hnd).2 n hn]

/-- Claim C8: for two tasks A and B submitted to the same agent with A
before B, if neither is ever requeued by the admission check then the
transition of A to `in_progress` happens no later than that of B.  From a fresh
agent (all tasks pending, positive ceiling) the run produces its
`in_progress` transitions exactly in submission order and no requeue
event at all, so the hypothesis of the claim holds and the index of A
among the `in_progress` transitions is strictly below that of B. -/
theorem C8_fifo_admission (ts : List Nat) (m i j : Nat) (hm : 0 < m)
    (hnd : ts.Nodup) (hij : i < j) (hj : j < ts.length) :
    inprogs ((runSteps (ts.length + 1) (initAgent ts m)).events) = ts ∧
    noRequeues ((runSteps (ts.length + 1) (initAgent ts m)).events) = true ∧
    (inprogs ((runSteps (ts.length + 1) (initAgent ts m)).events)).indexOf
        (ts.get ⟨i, Nat.lt_trans hij hj⟩)
      < (inprogs ((runSteps (ts.length + 1) (initAgent ts m)).events)).indexOf
        (ts.get ⟨j, hj⟩) := by
  have he := run_events_initAgent ts m hm
  refine ⟨?_, ?_, ?_⟩
  · rw [he, inprogs_append, inprogs_map_spawned, inprogs_map_inprog, List.nil_append]
  · rw [he, noRequeues_append, noRequeues_map_spawned, noRequeues_map_inprog]
    rfl
  · rw [he, inprogs_append, inprogs_map_spawned, inprogs_map_inprog, List.nil_append]
    rw [indexOf_get_of_nodup ts hnd i (Nat.lt_trans hij hj),
      indexOf_get_of_nodup ts hnd j hj]
    exact hij

/-- Witness for C8: three tasks on a ceiling-1 agent; the in-progress
order equals the submission order and task 5 (first submitted) enters
`in_progress` before task 2 (last submitted). -/
theorem C8_fifo_admission_w :
    inprogs ((runSteps 4 (initAgent [5, 9, 2] 1)).events) = [5, 9, 2] ∧
    noRequeues ((runSteps 4 (initAgent [5, 9, 2] 1)).events) = true ∧
    (inprogs ((runSteps 4 (initAgent [5, 9, 2] 1)).events)).indexOf 5
      < (inprogs ((runSteps 4 (initAgent [5, 9, 2] 1)).events)).indexOf 2 :=
  C8_fifo_admission [5, 9, 2] 1 0 2 (by decide) (by decide) (by decide) (by decide)

end MultiAgent
